import Mathlib

/-!
Shallow embedding of the booking, payment-reconciliation and review
workflow of the jeep safari marketplace backend: the request handlers of
routes/bookings.js, routes/admin.js, routes/reviews.js and the payments
router are modelled as pure functions over explicit stores.
JavaScript numbers are modelled as exact rationals; the md5 digest used
by the hosted-page payment gateway is an abstract function parameter.
-/

namespace Jeep

/-- Truthiness of an optional string field of a JSON body: an absent
field and the empty string are falsy, every other string is truthy. -/
def strTruthy : Option String → Bool
  | none => false
  | some s => s != ""

/-- Truthiness of an optional numeric field of a JSON body: an absent
field and the number 0 are falsy. -/
def numTruthy : Option ℚ → Bool
  | none => false
  | some q => q != 0

/-- Model of the mongoose ObjectId validity check: a 24 character
hexadecimal string. -/
def isValidObjectId (s : String) : Bool :=
  s.length == 24 &&
    s.data.all fun c => c.isDigit || (c ≥ 'a' && c ≤ 'f') || (c ≥ 'A' && c ≤ 'F')

/-- Provider document, restricted to the fields the handlers read. -/
structure Provider where
  id : String
  serviceName : String
  price : ℚ
  approved : Bool
  deriving Repr, DecidableEq

/-- Tourist document, restricted to the fields the handlers read. -/
structure Tourist where
  id : String
  fullName : String
  deriving Repr, DecidableEq

/-- Booking document as persisted by Booking.create, following the
schema in models/Booking.js. -/
structure Booking where
  id : String
  touristId : String
  providerId : Option String := none
  productType : Option String := none
  date : String
  time : String
  adults : ℚ
  children : ℚ := 0
  totalPrice : ℚ
  status : String := "pending"
  specialNotes : Option String := none
  contactId : Option String := none
  deriving Repr, DecidableEq

/-- Contact sub-object of a booking request body. -/
structure ContactReq where
  name : Option String := none
  email : Option String := none
  message : Option String := none
  phone : Option String := none
  deriving Repr, DecidableEq

/-- Request body of the booking creation endpoints; each handler
destructures only some of these fields. -/
structure BookingReq where
  providerId : Option String := none
  touristId : Option String := none
  productType : Option String := none
  date : Option String := none
  time : Option String := none
  adults : Option ℚ := none
  children : Option ℚ := none
  totalPrice : Option ℚ := none
  status : Option String := none
  specialNotes : Option String := none
  contact : Option ContactReq := none
  deriving Repr, DecidableEq

/-- Authenticated identity decoded from the bearer token. -/
structure UserTok where
  id : String
  role : String
  deriving Repr, DecidableEq

/-- Response of a booking endpoint: success with the affected record, or
an error with its HTTP status. -/
inductive BookingResp where
  | ok (message : String) (booking : Booking)
  | err (status : Nat) (error : String)
  deriving Repr, DecidableEq

/-- Result of running a booking handler: the response together with the
booking store after the request. -/
structure BookingOut where
  resp : BookingResp
  bookings : List Booking
  deriving Repr, DecidableEq

/-- Check that the contact object and all four of its fields are truthy,
mirroring the chained required-field test of the tourist handlers. -/
def contactTruthy : Option ContactReq → Bool
  | none => false
  | some c => strTruthy c.name && strTruthy c.email && strTruthy c.message && strTruthy c.phone

/-- Enum validation that mongoose applies to the status path of the
booking schema when a document is created. -/
def statusEnumOk (s : String) : Bool :=
  s == "pending" || s == "confirmed" || s == "cancelled"

/-- POST on the bookings router: tourist creates a provider-based
booking.  Fresh identifiers for the contact and booking documents are
passed in explicitly. -/
def createBooking (user : UserTok) (providers : List Provider) (bookings : List Booking)
    (newContactId newBookingId : String) (req : BookingReq) : BookingOut :=
  if user.role != "tourist" then
    ⟨.err 403 "Access denied: Only tourists can book", bookings⟩
  else if !(strTruthy req.providerId && strTruthy req.date && strTruthy req.time
      && numTruthy req.adults && contactTruthy req.contact) then
    ⟨.err 400 "Provider ID, date, time, adults, and contact details (name, email, message, phone) are required", bookings⟩
  else if !isValidObjectId (req.providerId.getD "") then
    ⟨.err 400 "Invalid Provider ID", bookings⟩
  else
    match providers.find? (fun p => p.id == req.providerId.getD "") with
    | none => ⟨.err 404 "Provider not found or not approved", bookings⟩
    | some prov =>
      if !prov.approved then ⟨.err 404 "Provider not found or not approved", bookings⟩
      else
        let a := req.adults.getD 0
        let c := req.children.getD 0
        let b : Booking :=
          { id := newBookingId, touristId := user.id, providerId := req.providerId,
            date := req.date.getD "", time := req.time.getD "",
            adults := a, children := c, specialNotes := req.specialNotes,
            totalPrice := prov.price * (a + 0.5 * c),
            status := "pending", contactId := some newContactId }
        ⟨.ok "Booking created successfully" b, bookings ++ [b]⟩

/-- POST product on the bookings router: tourist creates a curated
product booking with a caller-supplied total price. -/
def createProductBooking (user : UserTok) (bookings : List Booking)
    (newContactId newBookingId : String) (req : BookingReq) : BookingOut :=
  if user.role != "tourist" then
    ⟨.err 403 "Access denied: Only tourists can book", bookings⟩
  else if !(strTruthy req.productType && strTruthy req.date && strTruthy req.time
      && numTruthy req.adults && numTruthy req.totalPrice && contactTruthy req.contact) then
    ⟨.err 400 "Product type, date, time, adults, total price, and contact details (name, email, message, phone) are required", bookings⟩
  else
    let b : Booking :=
      { id := newBookingId, touristId := user.id, productType := req.productType,
        date := req.date.getD "", time := req.time.getD "",
        adults := req.adults.getD 0, children := req.children.getD 0,
        totalPrice := req.totalPrice.getD 0, specialNotes := req.specialNotes,
        status := "pending", contactId := some newContactId }
    ⟨.ok "Product booking created - awaiting admin approval" b, bookings ++ [b]⟩

/-- Booking.create as invoked with a request-controlled status string:
mongoose enforces the status enumeration, and a violation surfaces as a
500 server error in the catch block of the handler. -/
def mongooseCreate (bookings : List Booking) (b : Booking) : Option (List Booking) :=
  if statusEnumOk b.status then some (bookings ++ [b]) else none

/-- POST admin on the bookings router: admin creates a booking for a
tourist, applying the fixed 300 currency multiplier on the price. -/
def adminCreateBooking (tourists : List Tourist) (providers : List Provider)
    (bookings : List Booking) (newContactId newBookingId : String) (req : BookingReq) :
    BookingOut :=
  if !(strTruthy req.touristId && strTruthy req.date && strTruthy req.time
      && numTruthy req.adults && (strTruthy req.providerId || strTruthy req.productType)) then
    ⟨.err 400 "Tourist ID, date, time, adults, and either provider ID or product type are required", bookings⟩
  else if strTruthy req.providerId && !isValidObjectId (req.providerId.getD "") then
    ⟨.err 400 "Invalid Provider ID", bookings⟩
  else if !isValidObjectId (req.touristId.getD "") then
    ⟨.err 400 "Invalid Tourist ID", bookings⟩
  else
    match tourists.find? (fun t => t.id == req.touristId.getD "") with
    | none => ⟨.err 404 "Tourist not found", bookings⟩
    | some _ =>
      let contactId :=
        match req.contact with
        | some c => if strTruthy c.name && strTruthy c.email && strTruthy c.message
            then some newContactId else none
        | none => none
      let a := req.adults.getD 0
      let c := req.children.getD 0
      let base : Booking :=
        { id := newBookingId, touristId := req.touristId.getD "",
          date := req.date.getD "", time := req.time.getD "",
          adults := a, children := c, totalPrice := 0,
          status := if strTruthy req.status then req.status.getD "" else "pending",
          specialNotes := req.specialNotes, contactId := contactId }
      if strTruthy req.providerId then
        match providers.find? (fun p => p.id == req.providerId.getD "") with
        | none => ⟨.err 404 "Provider not found or not approved", bookings⟩
        | some prov =>
          if !prov.approved then ⟨.err 404 "Provider not found or not approved", bookings⟩
          else
            let tp := if numTruthy req.totalPrice
              then req.totalPrice.getD 0 * 300
              else prov.price * 300 * (a + 0.5 * c)
            let b := { base with providerId := req.providerId, totalPrice := tp }
            match mongooseCreate bookings b with
            | some newBookings => ⟨.ok "Booking created successfully" b, newBookings⟩
            | none => ⟨.err 500 "Server error: Failed to create booking", bookings⟩
      else
        -- Product branch.  When totalPrice is absent the source computes
        -- Number(undefined) * 300, a NaN that has no rational counterpart;
        -- no claim exercises that corner and it is modelled as 0.
        let tp := req.totalPrice.getD 0 * 300
        let b := { base with productType := req.productType, totalPrice := tp }
        match mongooseCreate bookings b with
        | some newBookings => ⟨.ok "Booking created successfully" b, newBookings⟩
        | none => ⟨.err 500 "Server error: Failed to create booking", bookings⟩

/-- Price tier of a curated product: a headcount range with a per-person
price.  A missing upper bound models the Infinity literal of the
source table. -/
structure Tier where
  min : ℚ
  max : Option ℚ
  price : ℚ
  deriving Repr, DecidableEq

/-- Headcount containment test of the tier search in the admin booking
handler: totalPersons at least min and at most max. -/
def tierContains (t : Tier) (n : ℚ) : Bool :=
  t.min ≤ n && (match t.max with | none => true | some m => n ≤ m)

/-- Published per-headcount price table of routes/admin.js.  Products
mapped to null there and unknown product names alike fail the pricing
truthiness test of the handler and are both mapped to none here. -/
def PRICING_STRUCTURE (productType : String) : Option (List Tier) :=
  match productType with
  | "Jeep Safari" =>
      some [⟨1, some 3, 38⟩, ⟨4, some 5, 30⟩, ⟨6, some 10, 20⟩, ⟨11, some 20, 15⟩]
  | "Catamaran Boat Ride" =>
      some [⟨1, some 1, 9.8⟩, ⟨2, none, 7⟩]
  | "Village Cooking Experience" =>
      some [⟨1, some 5, 15⟩, ⟨6, some 10, 13⟩, ⟨11, some 20, 11⟩, ⟨21, some 50, 10⟩]
  | "Bullock Cart Ride" =>
      some [⟨1, some 5, 9.9⟩, ⟨6, some 20, 5⟩, ⟨21, some 50, 4⟩]
  | "Village Tour" =>
      some [⟨1, some 5, 19.9⟩, ⟨6, some 10, 18.2⟩, ⟨11, some 20, 17.3⟩,
            ⟨21, some 30, 16.3⟩, ⟨31, some 50, 15⟩]
  | "Traditional Village Lunch" =>
      some [⟨1, none, 15⟩]
  | _ => none

/-- POST bookings admin on the admin router: admin creates a booking,
pricing curated products from the published tier table.  Error messages
carrying interpolated values are modelled by fixed strings. -/
def adminAddBooking (tourists : List Tourist) (providers : List Provider)
    (bookings : List Booking) (newBookingId : String) (req : BookingReq) : BookingOut :=
  if !(strTruthy req.touristId && strTruthy req.date && strTruthy req.time
      && numTruthy req.adults) then
    ⟨.err 400 "Tourist ID, Date, Time, and Adults are required", bookings⟩
  else if strTruthy req.providerId && strTruthy req.productType then
    ⟨.err 400 "Cannot specify both providerId and productType", bookings⟩
  else if strTruthy req.providerId && !isValidObjectId (req.providerId.getD "") then
    ⟨.err 400 "Invalid Provider ID", bookings⟩
  else if !isValidObjectId (req.touristId.getD "") then
    ⟨.err 400 "Invalid Tourist ID", bookings⟩
  else
    match tourists.find? (fun t => t.id == req.touristId.getD "") with
    | none => ⟨.err 404 "Tourist not found", bookings⟩
    | some _ =>
      let a := req.adults.getD 0
      let c := req.children.getD 0
      let base : Booking :=
        { id := newBookingId, touristId := req.touristId.getD "",
          date := req.date.getD "", time := req.time.getD "",
          adults := a, children := c, totalPrice := 0,
          status := if strTruthy req.status then req.status.getD "" else "pending",
          specialNotes := req.specialNotes }
      if strTruthy req.providerId then
        match providers.find? (fun p => p.id == req.providerId.getD "") with
        | none => ⟨.err 404 "Provider not found", bookings⟩
        | some prov =>
          let tp := prov.price * (a + c * 0.5)
          let b := { base with providerId := req.providerId, totalPrice := tp }
          match mongooseCreate bookings b with
          | some newBookings => ⟨.ok "Booking added" b, newBookings⟩
          | none => ⟨.err 500 "Server error", bookings⟩
      else if strTruthy req.productType then
        match PRICING_STRUCTURE (req.productType.getD "") with
        | none => ⟨.err 400 "Invalid product type or no pricing available", bookings⟩
        | some pricing =>
          let totalPersons := a + c
          match pricing.find? (fun t => tierContains t totalPersons) with
          | none => ⟨.err 400 "No pricing tier for this many persons", bookings⟩
          | some tier =>
            let tp := totalPersons * tier.price
            let b := { base with productType := req.productType, totalPrice := tp }
            match mongooseCreate bookings b with
            | some newBookings => ⟨.ok "Booking added" b, newBookings⟩
            | none => ⟨.err 500 "Server error", bookings⟩
      else
        -- Neither reference given: Booking.create rejects the document
        -- because providerId and totalPrice are then required, and the
        -- handler surfaces the validation failure from its catch block.
        ⟨.err 500 "Server error", bookings⟩

/-- Update applied to a stored booking by the confirm operations: set
status to confirmed on the document with the given id. -/
def confirmUpd (id : String) (b : Booking) : Booking :=
  if b.id == id then { b with status := "confirmed" } else b

/-- PUT approve on the bookings router: admin approval sets the status
of the booking to confirmed with no check on the current status. -/
def approveBooking (bookings : List Booking) (id : String) : BookingOut :=
  if !isValidObjectId id then ⟨.err 400 "Invalid Booking ID", bookings⟩
  else
    match bookings.find? (fun b => b.id == id) with
    | none => ⟨.err 404 "Booking not found", bookings⟩
    | some b =>
      ⟨.ok "Booking approved successfully" { b with status := "confirmed" },
        bookings.map (confirmUpd id)⟩

/-- Form fields of the hosted-page payment callback. -/
structure PayhereCallback where
  merchant_id : String
  order_id : String
  status_code : String
  md5sig : String
  amount : String
  currency : String
  deriving Repr, DecidableEq

/-- Ordered concatenation hashed by the callback handler: merchant id,
order id, amount, currency, status code, then the shared secret. -/
def notifHashInput (cb : PayhereCallback) (merchantSecret : String) : String :=
  cb.merchant_id ++ cb.order_id ++ cb.amount ++ cb.currency ++ cb.status_code ++ merchantSecret

/-- Result of the callback handler: the HTTP status of the response and
the booking store afterwards. -/
structure PayhereOut where
  status : Nat
  bookings : List Booking
  deriving Repr, DecidableEq

/-- POST payhere-notification: recompute the md5 digest over the ordered
concatenation and compare it with the attached signature; on a match
with status code 2 confirm the booking named by the order id.  The md5
hex digest of the crypto library is the abstract parameter md5up. -/
def payhereNotification (md5up : String → String) (merchantSecret : String)
    (bookings : List Booking) (cb : PayhereCallback) : PayhereOut :=
  let generatedSig := md5up (notifHashInput cb merchantSecret)
  if generatedSig != cb.md5sig then ⟨400, bookings⟩
  else if cb.status_code == "2" then ⟨200, bookings.map (confirmUpd cb.order_id)⟩
  else ⟨200, bookings⟩

/-- Review document following the schema in models/Review.js.  The
reviewer and target references are optional here so that orphaned or
null references found in legacy records can be represented. -/
structure Review where
  id : String
  targetId : Option String
  reviewerId : Option String
  rating : ℚ
  comment : String
  reviewType : String
  approved : Bool
  createdAt : Nat
  deriving Repr, DecidableEq

/-- Curated product names accepted as review targets. -/
def validProducts : List String :=
  ["Jeep Safari", "Tuk Tuk Adventures", "Catamaran Boat Ride", "Village Cooking Experience",
   "Traditional Village Lunch", "Sundowners Cocktail", "High Tea", "Bullock Cart Ride",
   "Budget Village Tour", "Village Tour"]

/-- Response of the review submission endpoint. -/
inductive ReviewResp where
  | ok (review : Review)
  | err (status : Nat) (error : String)
  deriving Repr, DecidableEq

/-- Result of the review submission handler: the response together with
the review store after the request. -/
structure ReviewOut where
  resp : ReviewResp
  reviews : List Review
  deriving Repr, DecidableEq

/-- Request body of the review submission endpoint. -/
structure ReviewReq where
  targetId : Option String := none
  rating : Option ℚ := none
  comment : Option String := none
  reviewType : Option String := none
  deriving Repr, DecidableEq

/-- Model of the JavaScript string trim applied to the review comment:
leading and trailing whitespace characters are removed. -/
def jsTrim (s : String) : String :=
  ⟨((s.data.dropWhile Char.isWhitespace).reverse.dropWhile Char.isWhitespace).reverse⟩

/-- POST on the reviews router: gated review submission.  Tourists
review services and products, providers review tourists, and each
branch requires a confirmed booking linking reviewer and target.
Error messages carrying interpolated values are modelled by fixed
strings. -/
def submitReview (user : UserTok) (providers : List Provider) (tourists : List Tourist)
    (bookings : List Booking) (reviews : List Review) (newReviewId : String) (now : Nat)
    (req : ReviewReq) : ReviewOut :=
  if !strTruthy req.targetId then ⟨.err 400 "Target ID is required", reviews⟩
  else if !numTruthy req.rating || req.rating.getD 0 < 1 || req.rating.getD 0 > 5 then
    ⟨.err 400 "Rating must be between 1 and 5", reviews⟩
  else if !strTruthy req.comment || jsTrim (req.comment.getD "") == "" then
    ⟨.err 400 "Comment is required", reviews⟩
  else if !(["service", "product", "tourist"].contains (req.reviewType.getD "")) then
    ⟨.err 400 "Review type must be service, product, or tourist", reviews⟩
  else
    let rt := req.reviewType.getD ""
    let tid := req.targetId.getD ""
    let created : ReviewOut :=
      let r : Review :=
        { id := newReviewId, targetId := some tid, reviewerId := some user.id,
          rating := req.rating.getD 0, comment := req.comment.getD "",
          reviewType := rt, approved := rt == "service" || rt == "product",
          createdAt := now }
      ⟨.ok r, reviews ++ [r]⟩
    if user.role == "tourist" then
      if rt == "service" then
        if !isValidObjectId tid then ⟨.err 400 "Invalid Service ID format", reviews⟩
        else
          match providers.find? (fun p => p.id == tid) with
          | none => ⟨.err 404 "Service not found", reviews⟩
          | some _ =>
            match bookings.find? (fun b =>
                b.touristId == user.id && b.providerId == some tid && b.status == "confirmed") with
            | none => ⟨.err 403 "No confirmed booking found for service", reviews⟩
            | some _ => created
      else if rt == "product" then
        if !(validProducts.contains tid) then ⟨.err 400 "Invalid Product", reviews⟩
        else
          match bookings.find? (fun b =>
              b.touristId == user.id && b.productType == some tid && b.status == "confirmed") with
          | none => ⟨.err 403 "No confirmed booking found for product", reviews⟩
          | some _ => created
      else ⟨.err 403 "Tourists can only review services or products", reviews⟩
    else if user.role == "provider" && rt == "tourist" then
      if !isValidObjectId tid then ⟨.err 400 "Invalid Tourist ID format", reviews⟩
      else
        match tourists.find? (fun t => t.id == tid) with
        | none => ⟨.err 404 "Tourist not found", reviews⟩
        | some _ =>
          match bookings.find? (fun b =>
              b.providerId == some user.id && b.touristId == tid && b.status == "confirmed") with
          | none => ⟨.err 403 "No confirmed booking found for tourist", reviews⟩
          | some _ => created
    else ⟨.err 403 "Access denied: Invalid role or review type", reviews⟩

/-- Review record as shaped for the home page, carrying the resolved
reviewer and target display names. -/
structure PopulatedReview where
  review : Review
  reviewerName : String
  targetName : String
  deriving Repr, DecidableEq

/-- Per-record population step of the home-page listing: resolve the
reviewer, and for service reviews the target provider; any null,
malformed or dangling reference makes the record resolve to none and it
is silently dropped. -/
def populateHomeReview (tourists : List Tourist) (providers : List Provider)
    (r : Review) : Option PopulatedReview :=
  if !(strTruthy r.reviewerId && strTruthy r.targetId) then none
  else if r.reviewType == "service" then
    if !(isValidObjectId (r.reviewerId.getD "") && isValidObjectId (r.targetId.getD "")) then none
    else
      match tourists.find? (fun t => t.id == r.reviewerId.getD ""),
            providers.find? (fun p => p.id == r.targetId.getD "") with
      | some reviewer, some target =>
        if reviewer.fullName != "" && target.serviceName != "" then
          some ⟨r, reviewer.fullName, target.serviceName⟩
        else none
      | _, _ => none
  else
    if !isValidObjectId (r.reviewerId.getD "") then none
    else
      match tourists.find? (fun t => t.id == r.reviewerId.getD "") with
      | some reviewer =>
        if reviewer.fullName != "" then some ⟨r, reviewer.fullName, r.targetId.getD ""⟩
        else none
      | none => none

/-- Insertion step of the sort by creation date in descending order
applied by the home-page listing. -/
def insertDesc (x : PopulatedReview) : List PopulatedReview → List PopulatedReview
  | [] => [x]
  | y :: ys =>
    if y.review.createdAt ≤ x.review.createdAt then x :: y :: ys else y :: insertDesc x ys

/-- Sort by creation date in descending order, modelling the comparator
of the home-page listing. -/
def sortDesc : List PopulatedReview → List PopulatedReview
  | [] => []
  | x :: xs => insertDesc x (sortDesc xs)

/-- GET all on the reviews router: approved service and product reviews
with resolvable references, newest first, truncated to six records. -/
def getAllReviews (tourists : List Tourist) (providers : List Provider)
    (reviews : List Review) : List PopulatedReview :=
  let base := reviews.filter fun r =>
    (r.reviewType == "service" || r.reviewType == "product") && r.approved
      && r.reviewerId.isSome && r.targetId.isSome
  let populated := base.filterMap (populateHomeReview tourists providers)
  (sortDesc populated).take 6

/-- Semantic disjointness of two tiers: no headcount is contained in
both. -/
def disjTiers (t u : Tier) : Prop :=
  ∀ n : ℚ, tierContains t n = true → tierContains u n = true → False

/-- Decidable separation test for two tiers: one range ends strictly
below the start of the other. -/
def tiersSeparated (t u : Tier) : Bool :=
  (match t.max with | some m => decide (m < u.min) | none => false)
    || (match u.max with | some m => decide (m < t.min) | none => false)

/-- Approved provider used by the concrete witness scenarios. -/
def provEx : Provider :=
  { id := "aaaaaaaaaaaaaaaaaaaaaaaa", serviceName := "Jeep Safari Ride",
    price := 38, approved := true }

/-- Tourist token used by the concrete witness scenarios. -/
def userTouristEx : UserTok := { id := "bbbbbbbbbbbbbbbbbbbbbbbb", role := "tourist" }

/-- Tourist document matching the token above. -/
def tourEx : Tourist := { id := "bbbbbbbbbbbbbbbbbbbbbbbb", fullName := "Alice Perera" }

/-- Complete contact sub-object used by the witness scenarios. -/
def contactEx : ContactReq :=
  { name := some "Alice", email := some "alice@example.com",
    message := some "hello", phone := some "0771234567" }

/-- Valid provider-based booking request with two adults and one
child. -/
def reqEx : BookingReq :=
  { providerId := some "aaaaaaaaaaaaaaaaaaaaaaaa", date := some "2025-01-01",
    time := some "10:00", adults := some 2, children := some 1,
    contact := some contactEx }

/-- Booking request with a negative adult count and a fractional child
count, otherwise identical to the valid request. -/
def reqNegAdults : BookingReq := { reqEx with adults := some (-1), children := some (1/2) }

/-- Pending booking sitting in the store for the lifecycle scenarios. -/
def bkEx : Booking :=
  { id := "dddddddddddddddddddddddd", touristId := "bbbbbbbbbbbbbbbbbbbbbbbb",
    providerId := some "aaaaaaaaaaaaaaaaaaaaaaaa", date := "2025-01-01",
    time := "10:00", adults := 2, children := 1, totalPrice := 95,
    status := "pending", contactId := some "e1" }

/-- Confirmed copy of the stored booking. -/
def bkConfEx : Booking := { bkEx with status := "confirmed" }

/-- Callback fields shared by the signed callback examples, with an
empty signature slot. -/
def cbBaseEx : PayhereCallback :=
  { merchant_id := "M1", order_id := "dddddddddddddddddddddddd",
    status_code := "2", md5sig := "", amount := "95.00", currency := "LKR" }

/-- Correctly signed success callback under the identity digest and the
shared secret sec. -/
def cbEx : PayhereCallback := { cbBaseEx with md5sig := notifHashInput cbBaseEx "sec" }

/-- Callback fields of a non-success callback, status code 3, with an
empty signature slot. -/
def cbBase3Ex : PayhereCallback := { cbBaseEx with status_code := "3" }

/-- Correctly signed non-success callback under the identity digest. -/
def cbEx3 : PayhereCallback := { cbBase3Ex with md5sig := notifHashInput cbBase3Ex "sec" }

/-- Callback whose attached signature does not match the recomputed
digest. -/
def cbBadEx : PayhereCallback := { cbBaseEx with md5sig := "TAMPERED" }

/-- Valid service review request targeting the witness provider. -/
def reviewReqEx : ReviewReq :=
  { targetId := some "aaaaaaaaaaaaaaaaaaaaaaaa", rating := some 5,
    comment := some "Great trip", reviewType := some "service" }

/-- Approved stored service review with resolvable references. -/
def revEx : Review :=
  { id := "r1", targetId := some "aaaaaaaaaaaaaaaaaaaaaaaa",
    reviewerId := some "bbbbbbbbbbbbbbbbbbbbbbbb", rating := 5,
    comment := "Great trip", reviewType := "service", approved := true,
    createdAt := 5 }

/-- Admin booking request for a curated product whose headcount hits the
first Jeep Safari tier. -/
def reqJeepEx : BookingReq :=
  { touristId := some "bbbbbbbbbbbbbbbbbbbbbbbb", productType := some "Jeep Safari",
    date := some "2025-01-01", time := some "10:00", adults := some 2,
    children := some 1 }

/-- Admin booking request for a curated product whose headcount falls in
no Jeep Safari tier. -/
def reqJeepBigEx : BookingReq := { reqJeepEx with adults := some 25 }

/-- Admin booking request for a curated product that has no published
tier table. -/
def reqHighTeaEx : BookingReq := { reqJeepEx with productType := some "High Tea" }

/-- Admin booking request that supplies an explicit initial status of
confirmed for a provider-based booking. -/
def reqConfirmedEx : BookingReq :=
  { touristId := some "bbbbbbbbbbbbbbbbbbbbbbbb",
    providerId := some "aaaaaaaaaaaaaaaaaaaaaaaa", date := some "2025-01-01",
    time := some "10:00", adults := some 2, children := some 0,
    status := some "confirmed" }

/-- Matching predicate of the review gate: the confirmed booking that
must link reviewer, target and review kind, one clause per legal
role and kind combination of the submission handler. -/
def matchesGate (userId rt tid : String) (b : Booking) : Bool :=
  if rt == "service" then
    b.touristId == userId && b.providerId == some tid && b.status == "confirmed"
  else if rt == "product" then
    b.touristId == userId && b.productType == some tid && b.status == "confirmed"
  else
    b.providerId == some userId && b.touristId == tid && b.status == "confirmed"

/-- Admin booking request for a provider-based booking without an
explicit total price or status. -/
def reqAdminEx : BookingReq :=
  { touristId := some "bbbbbbbbbbbbbbbbbbbbbbbb",
    providerId := some "aaaaaaaaaaaaaaaaaaaaaaaa", date := some "2025-01-01",
    time := some "10:00", adults := some 2, children := some 1 }

/-- Booking request with the adult count field absent. -/
def reqNoAdultsEx : BookingReq := { reqEx with adults := none }

lemma string_append_cancel_right (a b c : String) (h : a ++ c = b ++ c) : a = b := by
  have hd : a.data ++ c.data = b.data ++ c.data := by
    simpa [String.data_append] using congrArg String.data h
  have hab : a.data = b.data := List.append_cancel_right hd
  cases a; cases b; exact congrArg String.mk hab

lemma string_append_cancel_left (a b c : String) (h : a ++ b = a ++ c) : b = c := by
  have hd : a.data ++ b.data = a.data ++ c.data := by
    simpa [String.data_append] using congrArg String.data h
  have hbc : b.data = c.data := List.append_cancel_left hd
  cases b; cases c; exact congrArg String.mk hbc

lemma confirmUpd_confirmUpd (i : String) (b : Booking) :
    confirmUpd i (confirmUpd i b) = confirmUpd i b := by
  unfold confirmUpd
  by_cases h : (b.id == i) = true <;> simp [h]

lemma map_confirmUpd_idem (i : String) (l : List Booking) :
    (l.map (confirmUpd i)).map (confirmUpd i) = l.map (confirmUpd i) := by
  rw [List.map_map]
  exact List.map_congr_left fun b _ => confirmUpd_confirmUpd i b

lemma find?_map_confirmUpd (i : String) (l : List Booking) (b : Booking)
    (h : l.find? (fun x => x.id == i) = some b) :
    (l.map (confirmUpd i)).find? (fun x => x.id == i) = some { b with status := "confirmed" } := by
  induction l with
  | nil => simp at h
  | cons hd tl ih =>
    by_cases hhd : (hd.id == i) = true
    · have hfind : (hd :: tl).find? (fun x => x.id == i) = some hd :=
        List.find?_cons_of_pos _ hhd
      rw [hfind] at h
      injection h with h
      subst h
      have hup : confirmUpd i hd = { hd with status := "confirmed" } := by
        simp [confirmUpd, hhd]
      rw [List.map_cons, hup]
      exact List.find?_cons_of_pos _ (by simpa using hhd)
    · have hfind : (hd :: tl).find? (fun x => x.id == i) = tl.find? (fun x => x.id == i) :=
        List.find?_cons_of_neg _ (by simpa using hhd)
      rw [hfind] at h
      have hup : confirmUpd i hd = hd := by simp [confirmUpd, hhd]
      have hfind2 : (confirmUpd i hd :: tl.map (confirmUpd i)).find? (fun x => x.id == i)
          = (tl.map (confirmUpd i)).find? (fun x => x.id == i) := by
        rw [hup]
        exact List.find?_cons_of_neg _ (by simpa using hhd)
      rw [List.map_cons, hfind2]
      exact ih h

lemma disjTiers_of_separated (t u : Tier) (h : tiersSeparated t u = true) : disjTiers t u := by
  intro n h1 h2
  unfold tiersSeparated at h
  unfold tierContains at h1 h2
  rcases htm : t.max with _ | m <;> rcases hum : u.max with _ | m2 <;>
      rw [htm] at h h1 <;> rw [hum] at h h2 <;> simp at h h1 h2
  · linarith [h1, h2.1, h2.2]
  · linarith [h1.1, h1.2, h2]
  · rcases h with h | h
    · linarith [h1.1, h1.2, h2.1, h2.2]
    · linarith [h1.1, h1.2, h2.1, h2.2]

lemma pricing_pairwise (p : String) (tiers : List Tier)
    (h : PRICING_STRUCTURE p = some tiers) : tiers.Pairwise disjTiers := by
  have hb : tiers.Pairwise fun t u => tiersSeparated t u = true := by
    unfold PRICING_STRUCTURE at h
    split at h <;> cases h <;> decide
  exact hb.imp fun hs => disjTiers_of_separated _ _ hs

lemma find?_tier_of_mem (tiers : List Tier) (n : ℚ) (t : Tier)
    (hp : tiers.Pairwise disjTiers) (ht : t ∈ tiers) (hc : tierContains t n = true) :
    tiers.find? (fun u => tierContains u n) = some t := by
  induction tiers with
  | nil => cases ht
  | cons hd tl ih =>
    rw [List.pairwise_cons] at hp
    rcases List.mem_cons.mp ht with rfl | htl
    · exact List.find?_cons_of_pos _ hc
    · have hnc : ¬ tierContains hd n = true := fun hb => hp.1 t htl n hb hc
      have hfind : (hd :: tl).find? (fun u => tierContains u n) = tl.find? (fun u => tierContains u n) :=
        List.find?_cons_of_neg _ (by simpa using hnc)
      rw [hfind]
      exact ih hp.2 htl

lemma mem_insertDesc (x z : PopulatedReview) (l : List PopulatedReview) :
    z ∈ insertDesc x l ↔ z = x ∨ z ∈ l := by
  induction l with
  | nil => simp [insertDesc]
  | cons y ys ih =>
    unfold insertDesc
    by_cases h : y.review.createdAt ≤ x.review.createdAt <;> simp [h, ih] <;> tauto

lemma pairwise_insertDesc (x : PopulatedReview) (l : List PopulatedReview)
    (h : l.Pairwise fun a b => b.review.createdAt ≤ a.review.createdAt) :
    (insertDesc x l).Pairwise fun a b => b.review.createdAt ≤ a.review.createdAt := by
  induction l with
  | nil => simp [insertDesc]
  | cons y ys ih =>
    rw [List.pairwise_cons] at h
    unfold insertDesc
    by_cases hc : y.review.createdAt ≤ x.review.createdAt
    · rw [if_pos hc, List.pairwise_cons]
      refine ⟨?_, List.pairwise_cons.mpr h⟩
      intro z hz
      rcases List.mem_cons.mp hz with rfl | hz
      · exact hc
      · exact le_trans (h.1 z hz) hc
    · rw [if_neg hc, List.pairwise_cons]
      refine ⟨?_, ih h.2⟩
      intro z hz
      rcases (mem_insertDesc x z ys).mp hz with rfl | hz
      · exact Nat.le_of_not_le hc
      · exact h.1 z hz

lemma pairwise_sortDesc (l : List PopulatedReview) :
    (sortDesc l).Pairwise fun a b => b.review.createdAt ≤ a.review.createdAt := by
  induction l with
  | nil => simp [sortDesc]
  | cons x xs ih => exact pairwise_insertDesc x (sortDesc xs) ih

lemma mem_sortDesc (z : PopulatedReview) (l : List PopulatedReview) :
    z ∈ sortDesc l ↔ z ∈ l := by
  induction l with
  | nil => simp [sortDesc]
  | cons x xs ih =>
    unfold sortDesc
    rw [mem_insertDesc, ih, List.mem_cons]

lemma populateHomeReview_review (tourists : List Tourist) (providers : List Provider)
    (r : Review) (pr : PopulatedReview)
    (h : populateHomeReview tourists providers r = some pr) : pr.review = r := by
  unfold populateHomeReview at h
  repeat' split at h
  all_goals try cases h
  all_goals rfl

lemma find?_append_right {α : Type} (l : List α) (b : α) (p : α → Bool)
    (h : l.find? p = none) (hb : p b = true) : (l ++ [b]).find? p = some b := by
  induction l with
  | nil =>
    rw [List.nil_append]
    exact List.find?_cons_of_pos _ hb
  | cons x xs ih =>
    have hx : ¬ p x = true := by
      intro hpx
      have := List.find?_eq_none.mp h x (List.mem_cons_self x xs)
      exact this hpx
    have hxs : xs.find? p = none := by
      rcases hfx : xs.find? p with _ | y
      · rfl
      · have hy := List.find?_some hfx
        have hmem := List.mem_of_find?_eq_some hfx
        have := List.find?_eq_none.mp h y (List.mem_cons_of_mem x hmem)
        exact absurd hy this
    have hstep : ((x :: xs) ++ [b]).find? p = (xs ++ [b]).find? p := by
      rw [List.cons_append]
      exact List.find?_cons_of_neg _ hx
    rw [hstep]
    exact ih hxs

/-- C3: for every booking present in the store, admin approval and the
verified success callback of the hosted payment page both set the status
of that booking to confirmed regardless of its current status, and a
second invocation of either confirm operation on the same booking id
succeeds and leaves the store unchanged. -/
theorem C3_confirm_idempotent (bookings : List Booking) (i : String) (b : Booking)
    (hvalid : isValidObjectId i = true)
    (hfind : bookings.find? (fun x => x.id == i) = some b)
    (md5up : String → String) (secret : String) (cb : PayhereCallback)
    (hsig : cb.md5sig = md5up (notifHashInput cb secret))
    (hcode : cb.status_code = "2") (horder : cb.order_id = i) :
    approveBooking bookings i =
      ⟨.ok "Booking approved successfully" { b with status := "confirmed" },
        bookings.map (confirmUpd i)⟩ ∧
    approveBooking (bookings.map (confirmUpd i)) i =
      ⟨.ok "Booking approved successfully" { b with status := "confirmed" },
        bookings.map (confirmUpd i)⟩ ∧
    payhereNotification md5up secret bookings cb = ⟨200, bookings.map (confirmUpd i)⟩ ∧
    payhereNotification md5up secret (bookings.map (confirmUpd i)) cb =
      ⟨200, bookings.map (confirmUpd i)⟩ := by
  have h2 := find?_map_confirmUpd i bookings b hfind
  have hbne : (md5up (notifHashInput cb secret) != cb.md5sig) = false := by
    simp [hsig]
  refine ⟨?_, ?_, ?_, ?_⟩
  · simp [approveBooking, hvalid, hfind]
  · simp [approveBooking, hvalid, h2]
    exact fun a _ => confirmUpd_confirmUpd i a
  · simp [payhereNotification, hbne, hcode, horder]
  · simp [payhereNotification, hbne, hcode, horder]
    exact fun a _ => confirmUpd_confirmUpd i a

theorem C3_confirm_idempotent_witness :
    approveBooking [bkEx] "dddddddddddddddddddddddd" =
      ⟨.ok "Booking approved successfully" { bkEx with status := "confirmed" },
        [bkEx].map (confirmUpd "dddddddddddddddddddddddd")⟩ ∧
    payhereNotification (fun s => s) "sec"
        ([bkEx].map (confirmUpd "dddddddddddddddddddddddd")) cbEx =
      ⟨200, [bkEx].map (confirmUpd "dddddddddddddddddddddddd")⟩ := by
  have h := C3_confirm_idempotent [bkEx] "dddddddddddddddddddddddd" bkEx
    (by decide) (by decide) (fun s => s) "sec" cbEx rfl rfl rfl
  exact ⟨h.1, h.2.2.2⟩

/-- C9: admin approval of a stored pending booking succeeds, and reading
the booking back afterwards returns the same document with status
confirmed and every other field, including the total price, unchanged. -/
theorem C9_approve_frame (bookings : List Booking) (i : String) (b : Booking)
    (hvalid : isValidObjectId i = true)
    (hfind : bookings.find? (fun x => x.id == i) = some b)
    (hpending : b.status = "pending") :
    (approveBooking bookings i).resp =
      .ok "Booking approved successfully" { b with status := "confirmed" } ∧
    (approveBooking bookings i).bookings.find? (fun x => x.id == i) =
      some { b with status := "confirmed" } ∧
    ({ b with status := "confirmed" } : Booking).totalPrice = b.totalPrice := by
  refine ⟨?_, ?_, rfl⟩
  · simp [approveBooking, hvalid, hfind]
  · have h2 := find?_map_confirmUpd i bookings b hfind
    simp [approveBooking, hvalid, hfind, h2]

theorem C9_approve_frame_witness :
    (approveBooking [bkEx] "dddddddddddddddddddddddd").resp =
      .ok "Booking approved successfully" { bkEx with status := "confirmed" } ∧
    (approveBooking [bkEx] "dddddddddddddddddddddddd").bookings.find?
      (fun x => x.id == "dddddddddddddddddddddddd") =
      some { bkEx with status := "confirmed" } ∧
    ({ bkEx with status := "confirmed" } : Booking).totalPrice = bkEx.totalPrice :=
  C9_approve_frame [bkEx] "dddddddddddddddddddddddd" bkEx (by decide) (by decide) rfl

lemma payhere_reject_of_input_ne (md5up : String → String) (secret : String)
    (bookings : List Booking) (cb cb2 : PayhereCallback)
    (hinj : Function.Injective md5up)
    (hsig : cb.md5sig = md5up (notifHashInput cb secret))
    (hs : cb2.md5sig = cb.md5sig)
    (hne : notifHashInput cb2 secret ≠ notifHashInput cb secret) :
    payhereNotification md5up secret bookings cb2 = ⟨400, bookings⟩ := by
  have hd : md5up (notifHashInput cb2 secret) ≠ cb2.md5sig := by
    rw [hs, hsig]
    intro he
    exact hne (hinj he)
  have hb : (md5up (notifHashInput cb2 secret) != cb2.md5sig) = true := bne_iff_ne.mpr hd
  simp [payhereNotification, hb]

/-- C4: under a collision-free digest, altering any single field of a
correctly signed hosted-page callback, or altering its attached
signature, makes the recomputed digest differ from the attached
signature, so the callback is rejected and no booking changes status,
and a correctly signed callback whose status code is not 2 likewise
leaves every booking unchanged. -/
theorem C4_signature_integrity (md5up : String → String)
    (hinj : Function.Injective md5up) (secret : String) (bookings : List Booking)
    (cb : PayhereCallback) (hsig : cb.md5sig = md5up (notifHashInput cb secret))
    (m2 o2 am2 cur2 sc2 sig2 : String)
    (hm : m2 ≠ cb.merchant_id) (ho : o2 ≠ cb.order_id) (ham : am2 ≠ cb.amount)
    (hcur : cur2 ≠ cb.currency) (hsc : sc2 ≠ cb.status_code) (hsg : sig2 ≠ cb.md5sig) :
    payhereNotification md5up secret bookings { cb with merchant_id := m2 } = ⟨400, bookings⟩ ∧
    payhereNotification md5up secret bookings { cb with order_id := o2 } = ⟨400, bookings⟩ ∧
    payhereNotification md5up secret bookings { cb with amount := am2 } = ⟨400, bookings⟩ ∧
    payhereNotification md5up secret bookings { cb with currency := cur2 } = ⟨400, bookings⟩ ∧
    payhereNotification md5up secret bookings { cb with status_code := sc2 } = ⟨400, bookings⟩ ∧
    payhereNotification md5up secret bookings { cb with md5sig := sig2 } = ⟨400, bookings⟩ ∧
    (cb.status_code ≠ "2" → payhereNotification md5up secret bookings cb = ⟨200, bookings⟩) := by
  refine ⟨?_, ?_, ?_, ?_, ?_, ?_, ?_⟩
  · refine payhere_reject_of_input_ne md5up secret bookings cb _ hinj hsig rfl ?_
    intro he
    unfold notifHashInput at he
    dsimp only at he
    have h1 := string_append_cancel_right _ _ _ he
    have h2 := string_append_cancel_right _ _ _ h1
    have h3 := string_append_cancel_right _ _ _ h2
    have h4 := string_append_cancel_right _ _ _ h3
    exact hm (string_append_cancel_right _ _ _ h4)
  · refine payhere_reject_of_input_ne md5up secret bookings cb _ hinj hsig rfl ?_
    intro he
    unfold notifHashInput at he
    dsimp only at he
    have h1 := string_append_cancel_right _ _ _ he
    have h2 := string_append_cancel_right _ _ _ h1
    have h3 := string_append_cancel_right _ _ _ h2
    have h4 := string_append_cancel_right _ _ _ h3
    exact ho (string_append_cancel_left _ _ _ h4)
  · refine payhere_reject_of_input_ne md5up secret bookings cb _ hinj hsig rfl ?_
    intro he
    unfold notifHashInput at he
    dsimp only at he
    have h1 := string_append_cancel_right _ _ _ he
    have h2 := string_append_cancel_right _ _ _ h1
    have h3 := string_append_cancel_right _ _ _ h2
    exact ham (string_append_cancel_left _ _ _ h3)
  · refine payhere_reject_of_input_ne md5up secret bookings cb _ hinj hsig rfl ?_
    intro he
    unfold notifHashInput at he
    dsimp only at he
    have h1 := string_append_cancel_right _ _ _ he
    have h2 := string_append_cancel_right _ _ _ h1
    exact hcur (string_append_cancel_left _ _ _ h2)
  · refine payhere_reject_of_input_ne md5up secret bookings cb _ hinj hsig rfl ?_
    intro he
    unfold notifHashInput at he
    dsimp only at he
    have h1 := string_append_cancel_right _ _ _ he
    exact hsc (string_append_cancel_left _ _ _ h1)
  · have hd : md5up (notifHashInput { cb with md5sig := sig2 } secret) ≠ sig2 := by
      have hin : notifHashInput { cb with md5sig := sig2 } secret = notifHashInput cb secret := rfl
      rw [hin, ← hsig]
      exact fun he => hsg he.symm
    have hb : (md5up (notifHashInput { cb with md5sig := sig2 } secret) != sig2) = true :=
      bne_iff_ne.mpr hd
    simp [payhereNotification, hb]
  · intro hns
    have hb : (md5up (notifHashInput cb secret) != cb.md5sig) = false := by simp [hsig]
    have hc : (cb.status_code == "2") = false := by simp [hns]
    simp [payhereNotification, hb, hc]

theorem C4_signature_integrity_witness :
    payhereNotification (fun s => s) "sec" [bkEx] { cbEx3 with merchant_id := "MX" } =
      ⟨400, [bkEx]⟩ ∧
    payhereNotification (fun s => s) "sec" [bkEx] { cbEx3 with status_code := "2x" } =
      ⟨400, [bkEx]⟩ ∧
    payhereNotification (fun s => s) "sec" [bkEx] { cbEx3 with md5sig := "TAMPERED" } =
      ⟨400, [bkEx]⟩ ∧
    payhereNotification (fun s => s) "sec" [bkEx] cbEx3 = ⟨200, [bkEx]⟩ := by
  have h := C4_signature_integrity (fun s => s) Function.injective_id "sec" [bkEx] cbEx3 rfl
    "MX" "OX" "AX" "CX" "2x" "TAMPERED" (by decide) (by decide) (by decide) (by decide)
    (by decide) (by decide)
  exact ⟨h.1, h.2.2.2.2.1, h.2.2.2.2.2.1, h.2.2.2.2.2.2 (by decide)⟩

/-- C5 as stated is refuted at a concrete input: a hosted-page callback
with a tampered signature is answered with HTTP status 400 rather than
a success-style 200 acknowledgment, although no booking is updated. -/
theorem C5_counterexample :
    payhereNotification (fun s => s) "sec" [bkEx] cbBadEx = ⟨400, [bkEx]⟩ ∧
    (payhereNotification (fun s => s) "sec" [bkEx] cbBadEx).status ≠ 200 := by decide

/-- C5 amended: a callback whose recomputed digest differs from the
attached signature is answered with HTTP status 400 and updates no
booking, while a callback with a matching signature and a non-success
status code receives the 200 acknowledgment and updates no booking. -/
theorem C5_mismatch_response (md5up : String → String) (secret : String)
    (bookings : List Booking) (cb cb2 : PayhereCallback)
    (hne : md5up (notifHashInput cb secret) ≠ cb.md5sig)
    (hsig : cb2.md5sig = md5up (notifHashInput cb2 secret))
    (hns : cb2.status_code ≠ "2") :
    payhereNotification md5up secret bookings cb = ⟨400, bookings⟩ ∧
    payhereNotification md5up secret bookings cb2 = ⟨200, bookings⟩ := by
  constructor
  · have hb : (md5up (notifHashInput cb secret) != cb.md5sig) = true := bne_iff_ne.mpr hne
    simp [payhereNotification, hb]
  · have hb : (md5up (notifHashInput cb2 secret) != cb2.md5sig) = false := by simp [hsig]
    have hc : (cb2.status_code == "2") = false := by simp [hns]
    simp [payhereNotification, hb, hc]

theorem C5_mismatch_response_witness :
    payhereNotification (fun s => s) "sec" [bkEx] cbBadEx = ⟨400, [bkEx]⟩ ∧
    payhereNotification (fun s => s) "sec" [bkEx] cbEx3 = ⟨200, [bkEx]⟩ :=
  C5_mismatch_response (fun s => s) "sec" [bkEx] cbBadEx cbEx3 (by decide) rfl (by decide)

/-- C1: a valid provider-based booking request with base rate r, adult
count a and child count c stores the total price r times the sum of a
and half of c; the admin creation variant additionally applies the fixed
300 currency multiplier to the same formula when the caller supplies no
explicit total; and reading the created booking back by id returns the
stored document with that price. -/
theorem C1_provider_pricing
    (user : UserTok) (providers : List Provider) (bookings : List Booking)
    (ncid nbid : String) (req : BookingReq) (prov : Provider) (a c r : ℚ)
    (hrole : user.role = "tourist")
    (hpid : strTruthy req.providerId = true) (hdate : strTruthy req.date = true)
    (htime : strTruthy req.time = true) (hcontact : contactTruthy req.contact = true)
    (hvalid : isValidObjectId (req.providerId.getD "") = true)
    (hfind : providers.find? (fun p => p.id == req.providerId.getD "") = some prov)
    (happr : prov.approved = true) (hprice : prov.price = r)
    (ha : req.adults = some a) (ha1 : 1 ≤ a)
    (hc : req.children.getD 0 = c) (hc0 : 0 ≤ c)
    (hfresh : bookings.find? (fun x => x.id == nbid) = none)
    (tourists : List Tourist) (req2 : BookingReq)
    (h2tid : strTruthy req2.touristId = true) (h2date : strTruthy req2.date = true)
    (h2time : strTruthy req2.time = true)
    (h2pid : strTruthy req2.providerId = true)
    (h2pidv : isValidObjectId (req2.providerId.getD "") = true)
    (h2tidv : isValidObjectId (req2.touristId.getD "") = true)
    (h2tfind : ∃ tr, tourists.find? (fun x => x.id == req2.touristId.getD "") = some tr)
    (h2pfind : providers.find? (fun p => p.id == req2.providerId.getD "") = some prov)
    (h2a : req2.adults = some a) (h2c : req2.children.getD 0 = c)
    (h2tp : req2.totalPrice = none) (h2st : req2.status = none) :
    (∃ b : Booking,
      (createBooking user providers bookings ncid nbid req).resp =
        .ok "Booking created successfully" b ∧
      b.totalPrice = r * (a + 0.5 * c) ∧
      (createBooking user providers bookings ncid nbid req).bookings.find?
        (fun x => x.id == nbid) = some b) ∧
    (∃ b2 : Booking,
      (adminCreateBooking tourists providers bookings ncid nbid req2).resp =
        .ok "Booking created successfully" b2 ∧
      b2.totalPrice = r * (a + 0.5 * c) * 300) := by
  obtain ⟨tr, htr⟩ := h2tfind
  have hane : a ≠ 0 := by
    intro h0
    rw [h0] at ha1
    linarith
  have hna : numTruthy (some a) = true := by simp [numTruthy, hane]
  have h2ntp : numTruthy req2.totalPrice = false := by simp [numTruthy, h2tp]
  have h2nst : strTruthy req2.status = false := by simp [strTruthy, h2st]
  constructor
  · refine ⟨{ id := nbid, touristId := user.id, providerId := req.providerId,
              date := req.date.getD "", time := req.time.getD "",
              adults := a, children := c, specialNotes := req.specialNotes,
              totalPrice := r * (a + 0.5 * c), status := "pending",
              contactId := some ncid }, ?_, rfl, ?_⟩
    · simp [createBooking, hrole, hpid, hdate, htime, hcontact, hna, hvalid, hfind, happr,
        hprice, ha, hc, hane]
    · have hresult : (createBooking user providers bookings ncid nbid req).bookings =
          bookings ++ [{ id := nbid, touristId := user.id, providerId := req.providerId,
                         date := req.date.getD "", time := req.time.getD "",
                         adults := a, children := c, specialNotes := req.specialNotes,
                         totalPrice := r * (a + 0.5 * c), status := "pending",
                         contactId := some ncid }] := by
        simp [createBooking, hrole, hpid, hdate, htime, hcontact, hna, hvalid, hfind, happr,
          hprice, ha, hc, hane]
      rw [hresult]
      exact find?_append_right _ _ _ hfresh (by simp)
  · refine ⟨{ id := nbid, touristId := req2.touristId.getD "",
              date := req2.date.getD "", time := req2.time.getD "",
              adults := a, children := c, totalPrice := r * 300 * (a + 0.5 * c),
              status := "pending", specialNotes := req2.specialNotes,
              contactId := (match req2.contact with | some cc => if strTruthy cc.name && strTruthy cc.email && strTruthy cc.message then some ncid else none | none => none),
              providerId := req2.providerId }, ?_, by ring⟩
    simp [adminCreateBooking, h2tid, h2date, h2time, hna, h2pid, h2pidv, h2tidv, htr,
      h2pfind, happr, h2ntp, h2nst, h2a, h2c, hprice, hane, mongooseCreate, statusEnumOk]

theorem C1_provider_pricing_witness :
    (∃ b : Booking,
      (createBooking userTouristEx [provEx] [] "c1" "b1" reqEx).resp =
        .ok "Booking created successfully" b ∧
      b.totalPrice = 38 * (2 + 0.5 * 1) ∧
      (createBooking userTouristEx [provEx] [] "c1" "b1" reqEx).bookings.find?
        (fun x => x.id == "b1") = some b) ∧
    (∃ b2 : Booking,
      (adminCreateBooking [tourEx] [provEx] [] "c1" "b1" reqAdminEx).resp =
        .ok "Booking created successfully" b2 ∧
      b2.totalPrice = 38 * (2 + 0.5 * 1) * 300) :=
  C1_provider_pricing userTouristEx [provEx] [] "c1" "b1" reqEx provEx 2 1 38
    rfl (by decide) (by decide) (by decide) (by decide) (by decide) (by decide)
    (by decide) rfl rfl (by norm_num) rfl (by norm_num) rfl
    [tourEx] reqAdminEx (by decide) (by decide) (by decide) (by decide) (by decide)
    (by decide) ⟨tourEx, by decide⟩ (by decide) rfl rfl rfl rfl

/-- C7 as stated is refuted at a concrete input: a provider-based
booking request with a negative adult count and a fractional child count
passes validation and a booking with those headcounts is persisted. -/
theorem C7_counterexample :
    ((createBooking userTouristEx [provEx] [] "c1" "b1" reqNegAdults).bookings.map
      Booking.adults) = [-1] ∧
    ((createBooking userTouristEx [provEx] [] "c1" "b1" reqNegAdults).bookings.map
      Booking.children) = [1 / 2] ∧
    ((createBooking userTouristEx [provEx] [] "c1" "b1" reqNegAdults).bookings.length = 1) :=
  ⟨rfl, rfl, rfl⟩

/-- C7 amended: a missing or zero adult count is rejected by every
booking creation endpoint before anything is persisted; negative and
fractional headcounts, however, pass validation and are stored. -/
theorem C7_zero_adults_rejected (user : UserTok) (providers : List Provider)
    (tourists : List Tourist) (bookings : List Booking) (ncid nbid : String)
    (req : BookingReq) (hz : req.adults = none ∨ req.adults = some 0) :
    (∃ s e, (createBooking user providers bookings ncid nbid req).resp = .err s e) ∧
    (createBooking user providers bookings ncid nbid req).bookings = bookings ∧
    (∃ s e, (createProductBooking user bookings ncid nbid req).resp = .err s e) ∧
    (createProductBooking user bookings ncid nbid req).bookings = bookings ∧
    (∃ s e, (adminCreateBooking tourists providers bookings ncid nbid req).resp = .err s e) ∧
    (adminCreateBooking tourists providers bookings ncid nbid req).bookings = bookings ∧
    (∃ s e, (adminAddBooking tourists providers bookings nbid req).resp = .err s e) ∧
    (adminAddBooking tourists providers bookings nbid req).bookings = bookings := by
  have hna : numTruthy req.adults = false := by
    rcases hz with h | h <;> simp [numTruthy, h]
  by_cases hrole : (user.role != "tourist") = true
  · refine ⟨⟨403, "Access denied: Only tourists can book", ?_⟩, ?_,
      ⟨403, "Access denied: Only tourists can book", ?_⟩, ?_,
      ⟨400, "Tourist ID, date, time, adults, and either provider ID or product type are required", ?_⟩, ?_,
      ⟨400, "Tourist ID, Date, Time, and Adults are required", ?_⟩, ?_⟩ <;>
      simp [createBooking, createProductBooking, adminCreateBooking, adminAddBooking,
        hrole, hna]
  · refine ⟨⟨400, "Provider ID, date, time, adults, and contact details (name, email, message, phone) are required", ?_⟩, ?_,
      ⟨400, "Product type, date, time, adults, total price, and contact details (name, email, message, phone) are required", ?_⟩, ?_,
      ⟨400, "Tourist ID, date, time, adults, and either provider ID or product type are required", ?_⟩, ?_,
      ⟨400, "Tourist ID, Date, Time, and Adults are required", ?_⟩, ?_⟩ <;>
      simp [createBooking, createProductBooking, adminCreateBooking, adminAddBooking,
        hrole, hna]

theorem C7_zero_adults_rejected_witness :
    (∃ s e, (createBooking userTouristEx [provEx] [] "c1" "b1" reqNoAdultsEx).resp = .err s e) ∧
    (createBooking userTouristEx [provEx] [] "c1" "b1" reqNoAdultsEx).bookings = [] ∧
    (∃ s e, (createProductBooking userTouristEx [] "c1" "b1" reqNoAdultsEx).resp = .err s e) ∧
    (createProductBooking userTouristEx [] "c1" "b1" reqNoAdultsEx).bookings = [] ∧
    (∃ s e, (adminCreateBooking [tourEx] [provEx] [] "c1" "b1" reqNoAdultsEx).resp = .err s e) ∧
    (adminCreateBooking [tourEx] [provEx] [] "c1" "b1" reqNoAdultsEx).bookings = [] ∧
    (∃ s e, (adminAddBooking [tourEx] [provEx] [] "b1" reqNoAdultsEx).resp = .err s e) ∧
    (adminAddBooking [tourEx] [provEx] [] "b1" reqNoAdultsEx).bookings = [] :=
  C7_zero_adults_rejected userTouristEx [provEx] [tourEx] [] "c1" "b1" reqNoAdultsEx
    (Or.inl rfl)

/-- C8 as stated is refuted at a concrete input: the admin creation
endpoint accepts a caller-supplied initial status, and a booking whose
very first stored status is confirmed, not pending, is created. -/
theorem C8_counterexample :
    ((adminCreateBooking [tourEx] [provEx] [] "c1" "b1" reqConfirmedEx).bookings.map
      Booking.status) = ["confirmed"] ∧
    ((adminAddBooking [tourEx] [provEx] [] "b1" reqConfirmedEx).bookings.map
      Booking.status) = ["confirmed"] := by
  decide

/-- C8 amended: bookings created through the two tourist endpoints
always start with status pending; bookings created through the admin
endpoints default to pending when the request carries no status field,
but those endpoints accept an explicit initial status, so a booking can
start confirmed or cancelled there. -/
theorem C8_initial_status (user : UserTok) (providers : List Provider)
    (tourists : List Tourist) (bookings : List Booking) (ncid nbid : String)
    (req : BookingReq) :
    (∀ m b, (createBooking user providers bookings ncid nbid req).resp = .ok m b →
      b.status = "pending") ∧
    (∀ m b, (createProductBooking user bookings ncid nbid req).resp = .ok m b →
      b.status = "pending") ∧
    (req.status = none →
      ∀ m b, (adminCreateBooking tourists providers bookings ncid nbid req).resp = .ok m b →
        b.status = "pending") ∧
    (req.status = none →
      ∀ m b, (adminAddBooking tourists providers bookings nbid req).resp = .ok m b →
        b.status = "pending") := by
  refine ⟨?_, ?_, ?_, ?_⟩
  · intro m b h
    unfold createBooking at h
    repeat' split at h
    all_goals try simp only [BookingResp.ok.injEq] at h
    all_goals first
      | (obtain ⟨h1, h2⟩ := h; subst h2; rfl)
      | exact absurd h (by simp)
  · intro m b h
    unfold createProductBooking at h
    repeat' split at h
    all_goals try simp only [BookingResp.ok.injEq] at h
    all_goals first
      | (obtain ⟨h1, h2⟩ := h; subst h2; rfl)
      | exact absurd h (by simp)
  · intro hst m b h
    unfold adminCreateBooking at h
    rw [hst] at h
    simp [strTruthy, mongooseCreate, statusEnumOk] at h
    repeat' split at h
    all_goals try simp only [BookingResp.ok.injEq] at h
    all_goals first
      | (obtain ⟨h1, h2⟩ := h; subst h2; rfl)
      | exact absurd h (by simp)
  · intro hst m b h
    unfold adminAddBooking at h
    rw [hst] at h
    simp [strTruthy, mongooseCreate, statusEnumOk] at h
    repeat' split at h
    all_goals try simp only [BookingResp.ok.injEq] at h
    all_goals first
      | (obtain ⟨h1, h2⟩ := h; subst h2; rfl)
      | exact absurd h (by simp)

theorem C8_initial_status_witness :
    (∀ m b, (createBooking userTouristEx [provEx] [] "c1" "b1" reqEx).resp = .ok m b →
      b.status = "pending") ∧
    (∀ m b, (createProductBooking userTouristEx [] "c1" "b1" reqEx).resp = .ok m b →
      b.status = "pending") ∧
    (reqAdminEx.status = none →
      ∀ m b, (adminCreateBooking [tourEx] [provEx] [] "c1" "b1" reqAdminEx).resp = .ok m b →
        b.status = "pending") ∧
    (reqAdminEx.status = none →
      ∀ m b, (adminAddBooking [tourEx] [provEx] [] "b1" reqAdminEx).resp = .ok m b →
        b.status = "pending") := by
  have h1 := C8_initial_status userTouristEx [provEx] [tourEx] [] "c1" "b1" reqEx
  have h2 := C8_initial_status userTouristEx [provEx] [tourEx] [] "c1" "b1" reqAdminEx
  exact ⟨h1.1, h1.2.1, h2.2.2.1, h2.2.2.2⟩

/-- C2: for an admin curated-product booking with total headcount n, if
the published tier table of the product contains a tier whose range
holds n with unit price u, the stored total price is n times u; if no
tier of the table contains n, or the product has no published table, the
creation is rejected with a 400 validation error and no booking is
persisted. -/
theorem C2_tier_pricing
    (tourists : List Tourist) (providers : List Provider) (bookings : List Booking)
    (nbid : String) (req : BookingReq) (t : Tier) (tiers : List Tier) (n : ℚ)
    (htid : strTruthy req.touristId = true) (hdate : strTruthy req.date = true)
    (htime : strTruthy req.time = true) (hna : numTruthy req.adults = true)
    (hnopid : strTruthy req.providerId = false)
    (hpt : strTruthy req.productType = true)
    (htidv : isValidObjectId (req.touristId.getD "") = true)
    (htfind : ∃ tr, tourists.find? (fun x => x.id == req.touristId.getD "") = some tr)
    (hst : req.status = none)
    (hn : req.adults.getD 0 + req.children.getD 0 = n) :
    (PRICING_STRUCTURE (req.productType.getD "") = some tiers → t ∈ tiers →
      tierContains t n = true →
      ∃ b : Booking,
        adminAddBooking tourists providers bookings nbid req =
          ⟨.ok "Booking added" b, bookings ++ [b]⟩ ∧
        b.totalPrice = n * t.price) ∧
    ((∀ tiers2, PRICING_STRUCTURE (req.productType.getD "") = some tiers2 →
        ∀ u ∈ tiers2, tierContains u n = false) →
      (∃ e, (adminAddBooking tourists providers bookings nbid req).resp = .err 400 e) ∧
      (adminAddBooking tourists providers bookings nbid req).bookings = bookings) := by
  obtain ⟨tr, htr⟩ := htfind
  have hnst : strTruthy req.status = false := by simp [strTruthy, hst]
  constructor
  · intro hps hmem hcont
    have hfindt : tiers.find? (fun u => tierContains u n) = some t :=
      find?_tier_of_mem tiers n t (pricing_pairwise _ tiers hps) hmem hcont
    refine ⟨{ id := nbid, touristId := req.touristId.getD "",
              date := req.date.getD "", time := req.time.getD "",
              adults := req.adults.getD 0, children := req.children.getD 0,
              totalPrice := n * t.price, status := "pending",
              specialNotes := req.specialNotes,
              productType := req.productType }, ?_, rfl⟩
    simp [adminAddBooking, htid, hdate, htime, hna, hnopid, hpt, htidv, htr, hps, hn,
      hfindt, hnst, mongooseCreate, statusEnumOk]
  · intro hnone
    rcases hps : PRICING_STRUCTURE (req.productType.getD "") with _ | tiers2
    · constructor
      · exact ⟨"Invalid product type or no pricing available", by
          simp [adminAddBooking, htid, hdate, htime, hna, hnopid, hpt, htidv, htr, hps]⟩
      · simp [adminAddBooking, htid, hdate, htime, hna, hnopid, hpt, htidv, htr, hps]
    · have hfn : tiers2.find? (fun u => tierContains u n) = none :=
        List.find?_eq_none.mpr fun u hu => by simp [hnone tiers2 hps u hu]
      constructor
      · exact ⟨"No pricing tier for this many persons", by
          simp [adminAddBooking, htid, hdate, htime, hna, hnopid, hpt, htidv, htr, hps, hn, hfn]⟩
      · simp [adminAddBooking, htid, hdate, htime, hna, hnopid, hpt, htidv, htr, hps, hn, hfn]

theorem C2_tier_pricing_witness :
    (∃ b : Booking,
      adminAddBooking [tourEx] [] [] "b1" reqJeepEx = ⟨.ok "Booking added" b, [] ++ [b]⟩ ∧
      b.totalPrice = 3 * 38) ∧
    (∃ e, (adminAddBooking [tourEx] [] [] "b1" reqJeepBigEx).resp = .err 400 e) ∧
    (adminAddBooking [tourEx] [] [] "b1" reqJeepBigEx).bookings = [] ∧
    (∃ e, (adminAddBooking [tourEx] [] [] "b1" reqHighTeaEx).resp = .err 400 e) ∧
    (adminAddBooking [tourEx] [] [] "b1" reqHighTeaEx).bookings = [] := by
  have h1 := C2_tier_pricing [tourEx] [] [] "b1" reqJeepEx ⟨1, some 3, 38⟩
    [⟨1, some 3, 38⟩, ⟨4, some 5, 30⟩, ⟨6, some 10, 20⟩, ⟨11, some 20, 15⟩] 3
    (by decide) (by decide) (by decide) (by decide) (by decide) (by decide) (by decide)
    ⟨tourEx, by decide⟩ rfl (by norm_num [reqJeepEx])
  have h2 := C2_tier_pricing [tourEx] [] [] "b1" reqJeepBigEx ⟨1, some 3, 38⟩
    [⟨1, some 3, 38⟩, ⟨4, some 5, 30⟩, ⟨6, some 10, 20⟩, ⟨11, some 20, 15⟩] 26
    (by decide) (by decide) (by decide) (by decide) (by decide) (by decide) (by decide)
    ⟨tourEx, by decide⟩ rfl (by norm_num [reqJeepBigEx, reqJeepEx])
  have h3 := C2_tier_pricing [tourEx] [] [] "b1" reqHighTeaEx ⟨1, some 3, 38⟩
    [⟨1, some 3, 38⟩] 3
    (by decide) (by decide) (by decide) (by decide) (by decide) (by decide) (by decide)
    ⟨tourEx, by decide⟩ rfl (by norm_num [reqHighTeaEx, reqJeepEx])
  have h2r := h2.2 (by
    intro tiers2 hps u hu
    simp only [reqJeepBigEx, reqJeepEx] at hps
    rw [show PRICING_STRUCTURE ((some "Jeep Safari").getD "") =
      some [⟨1, some 3, 38⟩, ⟨4, some 5, 30⟩, ⟨6, some 10, 20⟩, ⟨11, some 20, 15⟩] from rfl] at hps
    injection hps with hps
    subst hps
    fin_cases hu <;> decide)
  have h3r := h3.2 (by
    intro tiers2 hps u hu
    rw [show PRICING_STRUCTURE (reqHighTeaEx.productType.getD "") = none from rfl] at hps
    cases hps)
  exact ⟨h1.1 rfl (by simp) (by decide), h2r.1, h2r.2, h3r.1, h3r.2⟩

/-- C6: a well-formed review submission from a reviewer who holds no
confirmed booking matching reviewer, target and kind is rejected with no
review created, while the same submission from a reviewer holding such a
booking creates the review, auto-approved for the service and product
kinds and left unapproved, pending admin approval, for the tourist
kind. -/
theorem C6_review_gating
    (user : UserTok) (providers : List Provider) (tourists : List Tourist)
    (reviews : List Review) (nrid : String) (now : Nat) (req : ReviewReq)
    (rt tid : String)
    (hrt : req.reviewType = some rt) (htid : req.targetId = some tid) (htidne : tid ≠ "")
    (hrat : numTruthy req.rating = true) (hrat1 : 1 ≤ req.rating.getD 0)
    (hrat5 : req.rating.getD 0 ≤ 5)
    (hcom : strTruthy req.comment = true) (hcomt : jsTrim (req.comment.getD "") ≠ "")
    (hlegal : (user.role = "tourist" ∧ (rt = "service" ∨ rt = "product")) ∨
      (user.role = "provider" ∧ rt = "tourist"))
    (hresS : rt = "service" → isValidObjectId tid = true ∧
      ∃ p, providers.find? (fun x => x.id == tid) = some p)
    (hresP : rt = "product" → validProducts.contains tid = true)
    (hresT : rt = "tourist" → isValidObjectId tid = true ∧
      ∃ tr, tourists.find? (fun x => x.id == tid) = some tr)
    (bookings1 bookings2 : List Booking)
    (hmatch : ∃ bm ∈ bookings1, matchesGate user.id rt tid bm = true)
    (hnomatch : ∀ b ∈ bookings2, matchesGate user.id rt tid b = false) :
    (∃ r : Review,
      (submitReview user providers tourists bookings1 reviews nrid now req).resp = .ok r ∧
      (submitReview user providers tourists bookings1 reviews nrid now req).reviews =
        reviews ++ [r] ∧
      r.approved = (rt == "service" || rt == "product")) ∧
    (∃ s e, (submitReview user providers tourists bookings2 reviews nrid now req).resp =
      .err s e) ∧
    (submitReview user providers tourists bookings2 reviews nrid now req).reviews =
      reviews := by
  have hnl1 : ¬(req.rating.getD 0 < 1) := not_lt.mpr hrat1
  have hnl5 : ¬(req.rating.getD 0 > 5) := not_lt.mpr hrat5
  have htrm : (jsTrim (req.comment.getD "") == "") = false := by
    simp [hcomt]
  have hts : strTruthy (some tid) = true := by simp [strTruthy, htidne]
  rcases hlegal with ⟨hrole, hsp⟩ | ⟨hrole, hrteq⟩
  · rcases hsp with hrteq | hrteq
    · subst hrteq
      obtain ⟨hvalid, p, hp⟩ := hresS rfl
      obtain ⟨bm, hbm, hg⟩ := hmatch
      have hf1 : (bookings1.find? (fun b =>
          b.touristId == user.id && b.providerId == some tid && b.status == "confirmed")).isSome :=
        List.find?_isSome.mpr ⟨bm, hbm, by simpa [matchesGate] using hg⟩
      obtain ⟨bf, hbf⟩ := Option.isSome_iff_exists.mp hf1
      have hf2 : bookings2.find? (fun b =>
          b.touristId == user.id && b.providerId == some tid && b.status == "confirmed") = none :=
        List.find?_eq_none.mpr fun b hb => by
          simpa [matchesGate] using hnomatch b hb
      refine ⟨⟨{ id := nrid, targetId := some tid, reviewerId := some user.id,
                 rating := req.rating.getD 0, comment := req.comment.getD "",
                 reviewType := "service", approved := true, createdAt := now }, ?_, ?_, ?_⟩,
        ⟨403, "No confirmed booking found for service", ?_⟩, ?_⟩ <;>
        simp [submitReview, htid, hts, hrat, hnl1, hnl5, hcom, htrm, hrt,
          hrole, hvalid, hp, hbf, hf2]
    · subst hrteq
      have hvp := hresP rfl
      have hvpm : tid ∈ validProducts := by simpa using hvp
      obtain ⟨bm, hbm, hg⟩ := hmatch
      have hf1 : (bookings1.find? (fun b =>
          b.touristId == user.id && b.productType == some tid && b.status == "confirmed")).isSome :=
        List.find?_isSome.mpr ⟨bm, hbm, by simpa [matchesGate] using hg⟩
      obtain ⟨bf, hbf⟩ := Option.isSome_iff_exists.mp hf1
      have hf2 : bookings2.find? (fun b =>
          b.touristId == user.id && b.productType == some tid && b.status == "confirmed") = none :=
        List.find?_eq_none.mpr fun b hb => by
          simpa [matchesGate] using hnomatch b hb
      refine ⟨⟨{ id := nrid, targetId := some tid, reviewerId := some user.id,
                 rating := req.rating.getD 0, comment := req.comment.getD "",
                 reviewType := "product", approved := true, createdAt := now }, ?_, ?_, ?_⟩,
        ⟨403, "No confirmed booking found for product", ?_⟩, ?_⟩ <;>
        simp [submitReview, htid, hts, hrat, hnl1, hnl5, hcom, htrm, hrt,
          hrole, hvp, hvpm, hbf, hf2]
  · subst hrteq
    obtain ⟨hvalid, tr, htr⟩ := hresT rfl
    obtain ⟨bm, hbm, hg⟩ := hmatch
    have hf1 : (bookings1.find? (fun b =>
        b.providerId == some user.id && b.touristId == tid && b.status == "confirmed")).isSome :=
      List.find?_isSome.mpr ⟨bm, hbm, by simpa [matchesGate] using hg⟩
    obtain ⟨bf, hbf⟩ := Option.isSome_iff_exists.mp hf1
    have hf2 : bookings2.find? (fun b =>
        b.providerId == some user.id && b.touristId == tid && b.status == "confirmed") = none :=
      List.find?_eq_none.mpr fun b hb => by
        simpa [matchesGate] using hnomatch b hb
    refine ⟨⟨{ id := nrid, targetId := some tid, reviewerId := some user.id,
               rating := req.rating.getD 0, comment := req.comment.getD "",
               reviewType := "tourist", approved := false, createdAt := now }, ?_, ?_, ?_⟩,
      ⟨403, "No confirmed booking found for tourist", ?_⟩, ?_⟩ <;>
      simp [submitReview, htid, hts, hrat, hnl1, hnl5, hcom, htrm, hrt,
        hrole, hvalid, htr, hbf, hf2]

theorem C6_review_gating_witness :
    (∃ r : Review,
      (submitReview userTouristEx [provEx] [] [bkConfEx] [] "r1" 7 reviewReqEx).resp = .ok r ∧
      (submitReview userTouristEx [provEx] [] [bkConfEx] [] "r1" 7 reviewReqEx).reviews =
        [] ++ [r] ∧
      r.approved = ("service" == "service" || "service" == "product")) ∧
    (∃ s e, (submitReview userTouristEx [provEx] [] [bkEx] [] "r1" 7 reviewReqEx).resp =
      .err s e) ∧
    (submitReview userTouristEx [provEx] [] [bkEx] [] "r1" 7 reviewReqEx).reviews = [] :=
  C6_review_gating userTouristEx [provEx] [] [] "r1" 7 reviewReqEx "service"
    "aaaaaaaaaaaaaaaaaaaaaaaa" rfl rfl (by decide) (by decide)
    (by norm_num [reviewReqEx]) (by norm_num [reviewReqEx]) (by decide) (by decide)
    (Or.inl ⟨rfl, Or.inl rfl⟩)
    (fun _ => ⟨by decide, provEx, by decide⟩)
    (by intro h; exact absurd h (by decide))
    (by intro h; exact absurd h (by decide))
    [bkConfEx] [bkEx] ⟨bkConfEx, by decide, by decide⟩ (by decide)

/-- C10: the home page review listing returns at most six records,
sorted by creation date in descending order, and every returned record
is an approved stored service or product review that survived the
orphan-dropping population step. -/
theorem C10_home_reviews (tourists : List Tourist) (providers : List Provider)
    (reviews : List Review) :
    (getAllReviews tourists providers reviews).length ≤ 6 ∧
    (getAllReviews tourists providers reviews).Pairwise
      (fun a b => b.review.createdAt ≤ a.review.createdAt) ∧
    ∀ pr ∈ getAllReviews tourists providers reviews,
      pr.review ∈ reviews ∧ pr.review.approved = true ∧
      (pr.review.reviewType = "service" ∨ pr.review.reviewType = "product") := by
  refine ⟨?_, ?_, ?_⟩
  · exact List.length_take_le 6 _
  · exact (pairwise_sortDesc _).sublist (List.take_sublist 6 _)
  · intro pr hpr
    have hsorted : pr ∈ sortDesc ((reviews.filter fun r =>
        (r.reviewType == "service" || r.reviewType == "product") && r.approved
          && r.reviewerId.isSome && r.targetId.isSome).filterMap
        (populateHomeReview tourists providers)) :=
      (List.take_sublist 6 _).subset hpr
    have hpop := (mem_sortDesc _ _).mp hsorted
    obtain ⟨r, hrbase, hrpop⟩ := List.mem_filterMap.mp hpop
    have hrev : pr.review = r := populateHomeReview_review tourists providers r pr hrpop
    obtain ⟨hrmem, hpred⟩ := List.mem_filter.mp hrbase
    subst hrev
    refine ⟨hrmem, ?_, ?_⟩ <;> simp_all

theorem C10_home_reviews_witness :
    (getAllReviews [tourEx] [provEx] [revEx]).length ≤ 6 ∧
    (getAllReviews [tourEx] [provEx] [revEx]).Pairwise
      (fun a b => b.review.createdAt ≤ a.review.createdAt) ∧
    (revEx ∈ [revEx] ∧ revEx.approved = true ∧
      (revEx.reviewType = "service" ∨ revEx.reviewType = "product")) := by
  have h := C10_home_reviews [tourEx] [provEx] [revEx]
  refine ⟨h.1, h.2.1, ?_⟩
  exact h.2.2 ⟨revEx, "Alice Perera", "Jeep Safari Ride"⟩ (by decide)
